import Mathlib

set_option maxRecDepth 4000

/-!
Verification of the QtXBee frame engine (src/qtxb/xbee.cpp): the
transparent and structured deframer of XBee.readData, the AT-response
dispatch of XBee.processATCommandRespone, the correlation-id counter of
XBee.sendATCommandAsync and XBee.sendATCommandSync, and the startup
handshake XBee.startupCheck.  Byte arrays are modelled as lists of
natural numbers holding byte values, and the Qt container operations
used by the source are modelled with the exact semantics of their
Qt implementations, including C integer conversions.
-/

/-- Value of a byte as read through a C char on the target platform,
where char is signed: bytes 128..255 read as negative values. -/
def signedChar (b : Nat) : Int :=
  if b < 128 then (b : Int) else (b : Int) - 256

/-- Ascii code of the lowercase hexadecimal digit for a value below 16,
as produced by QByteArray.toHex. -/
def hexDigitChar (n : Nat) : Nat :=
  if n < 10 then 48 + n else 87 + n

/-- QByteArray.toHex: two lowercase hexadecimal characters per byte. -/
def toHexBytes (payload : List Nat) : List Nat :=
  payload.foldr
    (fun b acc => hexDigitChar (b % 256 / 16) :: hexDigitChar (b % 256 % 16) :: acc) []

/-- Value of one ascii hexadecimal character, none when the character is
not a hexadecimal digit. -/
def hexCharVal (c : Nat) : Option Nat :=
  if 48 ≤ c ∧ c ≤ 57 then some (c - 48)
  else if 97 ≤ c ∧ c ≤ 102 then some (c - 87)
  else if 65 ≤ c ∧ c ≤ 70 then some (c - 55)
  else none

/-- Accumulating base-16 parse of an ascii character list. -/
def parseHexAcc : List Nat → Nat → Option Nat
  | [], acc => some acc
  | c :: rest, acc =>
    match hexCharVal c with
    | some v => parseHexAcc rest (acc * 16 + v)
    | none => none

/-- QString.toInt with base 16 on a character list: returns the parsed
value and an ok flag.  On an empty string, on a non-hexadecimal
character, or on a value beyond the positive int range the conversion
fails: the ok flag is false and the returned value is 0, exactly as
QString.toInt reports through its ok pointer and return value. -/
def qstringToIntHex (s : List Nat) : Nat × Bool :=
  match parseHexAcc s 0 with
  | some v => if s ≠ [] ∧ v ≤ 2 ^ 31 - 1 then (v, true) else (0, false)
  | none => (0, false)

/-- QByteArray.endsWith with a char argument: nonempty and the last byte
equals the argument. -/
def qbaEndsWith (xs : List Nat) (b : Nat) : Bool :=
  decide (0 < xs.length) && decide (xs.getD (xs.length - 1) 0 = b)

/-- QByteArray.left with a C int argument: the whole array when the
length argument is at least the size, empty when it is negative,
otherwise the first bytes. -/
def qbaLeft (xs : List Nat) (len : Int) : List Nat :=
  if (xs.length : Int) ≤ len then xs
  else if len < 0 then []
  else xs.take len.toNat

/-- QByteArray.remove at position 0 with a C int length argument:
unchanged when the length is not positive, cleared when the length
reaches the size, otherwise the first bytes are dropped. -/
def qbaRemoveFront (xs : List Nat) (len : Int) : List Nat :=
  if len ≤ 0 then xs
  else if (xs.length : Int) ≤ len then []
  else xs.drop len.toNat

/-- Leading-garbage loop of XBee.readData in structured mode: pop bytes
until the first byte is the 0x7E start delimiter or the buffer is
empty. -/
def dropGarbage : List Nat → List Nat
  | [] => []
  | b :: rest => if b = 126 then b :: rest else dropGarbage rest

/-- Frame-extraction step of XBee.readData in structured mode on an
already garbage-stripped buffer.  The length indicator is read at
offset 2 through a signed char and 4 is added; the unsigned length is
compared against the buffer size with both sides cast to unsigned
char, so both are reduced modulo 256; the extracted packet and the
buffer remainder use QByteArray.left and QByteArray.remove with the
length converted back to a C int. -/
def readDataAligned (buf : List Nat) : Option (List Nat) × List Nat :=
  if 2 < buf.length then
    if (signedChar (buf.getD 2 0) + 4) % 256 ≤ ((buf.length % 256 : Nat) : Int) then
      (some (qbaLeft buf (signedChar (buf.getD 2 0) + 4)),
       qbaRemoveFront buf (signedChar (buf.getD 2 0) + 4))
    else (none, buf)
  else (none, buf)

/-- Structured-mode branch of XBee.readData: strip garbage before the
0x7E start delimiter, then attempt to slice one frame. -/
def readDataAPI (buffer data : List Nat) : Option (List Nat) × List Nat :=
  readDataAligned (dropGarbage (buffer ++ data))

/-- Operating mode of the XBee object, selecting the deframing
discipline of XBee.readData. -/
inductive XBeeMode
  | TransparentMode
  | API1Mode

/-- One call of XBee.readData: append the newly arrived data to the
rolling buffer, then either emit the whole buffer on a trailing
carriage return (transparent mode) or attempt to slice one structured
frame.  The first component is the emitted packet, if any; the second
is the buffer contents after the call. -/
def readData (mode : XBeeMode) (buffer data : List Nat) : Option (List Nat) × List Nat :=
  match mode with
  | XBeeMode.TransparentMode =>
    if qbaEndsWith (buffer ++ data) 13 then (some (buffer ++ data), [])
    else (none, buffer ++ data)
  | XBeeMode.API1Mode => readDataAPI buffer data

/-- AT command codes handled by XBee.processATCommandRespone; the
unhandled constructor stands for every other code, which falls into the
default arm of the switch. -/
inductive ATCommand
  | DH | DL | MY | MP | NC | SH | SL | NI | SE | DE | CI | TO | NP | DD | CR | ND
  | unhandled

/-- A decoded ATCommandResponseFrame as consumed by
XBee.processATCommandRespone: the AT command code, the payload bytes
returned by the data accessor, and the command status (0 is Ok). -/
structure ATCommandResponse where
  atCmd : ATCommand
  data : List Nat
  status : Nat

/-- The stored addressing properties of the XBee object.  All fields
are numeric except ni, which the source assigns the hexadecimal string
of the payload. -/
structure PropState where
  dh : Nat
  dl : Nat
  my : Nat
  mp : Nat
  nc : Nat
  sh : Nat
  sl : Nat
  ni : List Nat
  se : Nat
  de : Nat
  ci : Nat
  to_ : Nat
  np : Nat
  dd : Nat
  cr : Nat

/-- Signals emitted by XBee.processATCommandRespone. -/
inductive ATEvent
  | DHChanged (v : Nat)
  | DLChanged (v : Nat)
  | MYChanged (v : Nat)
  | MPChanged (v : Nat)
  | NCChanged (v : Nat)
  | SHChanged (v : Nat)
  | SLChanged (v : Nat)
  | NIChanged (s : List Nat)
  | SEChanged (v : Nat)
  | DEChanged (v : Nat)
  | CIChanged (v : Nat)
  | TOChanged (v : Nat)
  | NPChanged (v : Nat)
  | DDChanged (v : Nat)
  | CRChanged (v : Nat)
  | receivedATCommandResponse (rep : ATCommandResponse)

/-- XBee.processATCommandRespone: hex-encode the payload, parse it back
as a base-16 integer (0 on failure), update the property selected by
the AT command code and emit its changed signal, then emit the generic
receivedATCommandResponse signal.  The status field of the response is
never consulted. -/
def processATCommandRespone (s : PropState) (rep : ATCommandResponse) :
    PropState × List ATEvent :=
  let data := toHexBytes rep.data
  let dataInt := (qstringToIntHex data).1
  let step : PropState × List ATEvent :=
    match rep.atCmd with
    | ATCommand.DH => ({ s with dh := dataInt }, [ATEvent.DHChanged dataInt])
    | ATCommand.DL => ({ s with dl := dataInt }, [ATEvent.DLChanged dataInt])
    | ATCommand.MY => ({ s with my := dataInt }, [ATEvent.MYChanged dataInt])
    | ATCommand.MP => ({ s with mp := dataInt }, [ATEvent.MPChanged dataInt])
    | ATCommand.NC => ({ s with nc := dataInt }, [ATEvent.NCChanged dataInt])
    | ATCommand.SH => ({ s with sh := dataInt }, [ATEvent.SHChanged dataInt])
    | ATCommand.SL => ({ s with sl := dataInt }, [ATEvent.SLChanged dataInt])
    | ATCommand.NI => ({ s with ni := data }, [ATEvent.NIChanged data])
    | ATCommand.SE => ({ s with se := dataInt }, [ATEvent.SEChanged dataInt])
    | ATCommand.DE => ({ s with de := dataInt }, [ATEvent.DEChanged dataInt])
    | ATCommand.CI => ({ s with ci := dataInt }, [ATEvent.CIChanged dataInt])
    | ATCommand.TO => ({ s with to_ := dataInt }, [ATEvent.TOChanged dataInt])
    | ATCommand.NP => ({ s with np := dataInt }, [ATEvent.NPChanged dataInt])
    | ATCommand.DD => ({ s with dd := dataInt }, [ATEvent.DDChanged dataInt])
    | ATCommand.CR => ({ s with cr := dataInt }, [ATEvent.CRChanged dataInt])
    | ATCommand.ND => (s, [])
    | ATCommand.unhandled => (s, [])
  (step.1, step.2 ++ [ATEvent.receivedATCommandResponse rep])

/-- Projection of the numeric stored property updated by an AT command
code, none for the text property NI, the discovery code ND and
unhandled codes. -/
def numericPropOf : ATCommand → Option (PropState → Nat)
  | ATCommand.DH => some (fun s => s.dh)
  | ATCommand.DL => some (fun s => s.dl)
  | ATCommand.MY => some (fun s => s.my)
  | ATCommand.MP => some (fun s => s.mp)
  | ATCommand.NC => some (fun s => s.nc)
  | ATCommand.SH => some (fun s => s.sh)
  | ATCommand.SL => some (fun s => s.sl)
  | ATCommand.NI => none
  | ATCommand.SE => some (fun s => s.se)
  | ATCommand.DE => some (fun s => s.de)
  | ATCommand.CI => some (fun s => s.ci)
  | ATCommand.TO => some (fun s => s.to_)
  | ATCommand.NP => some (fun s => s.np)
  | ATCommand.DD => some (fun s => s.dd)
  | ATCommand.CR => some (fun s => s.cr)
  | ATCommand.ND => none
  | ATCommand.unhandled => none

/-- Recognizer of the generic receivedATCommandResponse signal. -/
def isGenericResponseEvent : ATEvent → Bool
  | ATEvent.receivedATCommandResponse _ => true
  | _ => false

/-- Result of XBee.sendATCommandAsync: the frame id given to the
command, if any, and the counter value after the call. -/
structure AsyncSend where
  assignedId : Option Nat
  counter : Nat

/-- XBee.sendATCommandAsync: when the device was found and the serial
port is open, stamp the current counter onto the command as its frame
id and advance the counter, wrapping any value at or above 255 back to
1; otherwise log and drop the command, leaving the counter untouched. -/
def sendATCommandAsync (xbeeFound serialOpen : Bool) (c : Nat) : AsyncSend :=
  if xbeeFound && serialOpen then
    { assignedId := some c, counter := if 255 ≤ c then 1 else c + 1 }
  else
    { assignedId := none, counter := c }

/-- Result of XBee.sendATCommandSync: the frame id given to the
command, the counter after the call, and the returned response, which
wraps the drained reply bytes when there are any. -/
structure SyncSend where
  assignedId : Nat
  counter : Nat
  rep : Option (List Nat)

/-- XBee.sendATCommandSync: stamp and advance the counter
unconditionally, write the command, drain whatever bytes are available
after the waits, and return them wrapped in a response object, or a
null response when no byte arrived. -/
def sendATCommandSync (c : Nat) (replyBytes : List Nat) : SyncSend :=
  { assignedId := c,
    counter := if 255 ≤ c then 1 else c + 1,
    rep := if 0 < replyBytes.length then some replyBytes else none }

/-- Counter value after a number of asynchronous sends with the
transport available. -/
def asyncCounterIter : Nat → Nat → Nat
  | 0, c => c
  | n + 1, c => asyncCounterIter n (sendATCommandAsync true true c).counter

/-- Modelled from the spec: the Ok value of the command-status
enumeration of ATCommandResponseFrame, whose header is not under src;
the spec names it the successful status. -/
def ATResponseOk : Nat := 0

/-- Modelled from the spec: the accepted hardware revision for the
serie 1 family, from the QtXBee namespace header not under src. -/
def XBeeSerie1 : Nat := 23

/-- Modelled from the spec: the accepted hardware revision for the
serie 1 Pro family, from the QtXBee namespace header not under src; a
nonzero enumerator, as the spec notes the disjunction against it always
evaluates true. -/
def XBeeSerie1Pro : Nat := 24

/-- Outcome of one synchronous exchange as seen by XBee.startupCheck: a
null response, or a response with its decoded status and payload. -/
inductive SyncOutcome
  | noReply
  | reply (status : Nat) (payload : List Nat)

/-- Whether a synchronous exchange produced a response with Ok status. -/
def syncOutcomeIsOk : SyncOutcome → Bool
  | SyncOutcome.noReply => false
  | SyncOutcome.reply st _ => decide (st = ATResponseOk)

/-- The AP section of XBee.startupCheck: query the operating mode; on
an Ok response whose payload parses, either accept mode 1 directly or
send a synchronous set-to-1 command and require its status to be Ok.
Returns the value of bRet after the section and whether the corrective
set command was sent. -/
def apStepCheck : SyncOutcome → SyncOutcome → Bool × Bool
  | SyncOutcome.noReply, _ => (false, false)
  | SyncOutcome.reply st payload, apSet =>
    if st = ATResponseOk then
      if (qstringToIntHex (toHexBytes payload)).2 then
        if (qstringToIntHex (toHexBytes payload)).1 ≠ 1 then
          match apSet with
          | SyncOutcome.noReply => (false, true)
          | SyncOutcome.reply st2 _ => (decide (st2 = ATResponseOk), true)
        else (true, false)
      else (false, false)
    else (false, false)

/-- The HV section of XBee.startupCheck: query the hardware revision;
on an Ok response whose payload parses, test the value with the literal
source condition, a disjunction of an equality against XBeeSerie1 and
the nonzero constant XBeeSerie1Pro itself, keeping the incoming bRet on
success; every other outcome forces false. -/
def hvStepCheck (bRet : Bool) : SyncOutcome → Bool
  | SyncOutcome.noReply => false
  | SyncOutcome.reply st payload =>
    if st = ATResponseOk then
      if (qstringToIntHex (toHexBytes payload)).2 then
        if (qstringToIntHex (toHexBytes payload)).1 = XBeeSerie1 ∨ XBeeSerie1Pro ≠ 0 then
          bRet && true
        else false
      else false
    else false

/-- Overall result of XBee.startupCheck and whether the corrective
set-mode command was sent. -/
structure StartupResult where
  ok : Bool
  apSetSent : Bool

/-- XBee.startupCheck: when the device was found, run the AP section
followed by the HV section on the shared outcome variable; otherwise
fail without sending anything. -/
def startupCheck (xbeeFound : Bool) (apReply apSetReply hvReply : SyncOutcome) :
    StartupResult :=
  if xbeeFound then
    { ok := hvStepCheck (apStepCheck apReply apSetReply).1 hvReply,
      apSetSent := (apStepCheck apReply apSetReply).2 }
  else
    { ok := false, apSetSent := false }

/-- Property state with every stored value zero and an empty NI. -/
def zeroState : PropState :=
  { dh := 0, dl := 0, my := 0, mp := 0, nc := 0, sh := 0, sl := 0, ni := [],
    se := 0, de := 0, ci := 0, to_ := 0, np := 0, dd := 0, cr := 0 }

/-- Property state whose DH value is 5, to make overwrites visible. -/
def stateDH5 : PropState := { zeroState with dh := 5 }

/-- A well-formed structured frame with length indicator 128: start
delimiter, zero high length byte, low length byte 128, and 129 bytes of
type, payload and checksum. -/
def frameLen128 : List Nat := 126 :: 0 :: 128 :: List.replicate 129 17

/-- A well-formed structured frame with length indicator 127: start
delimiter, zero high length byte, low length byte 127, and 128 bytes of
type, payload and checksum. -/
def frameLen127 : List Nat := 126 :: 0 :: 127 :: List.replicate 128 9

/-- The six-byte example frame of the spec: declared length 2. -/
def frameExample : List Nat := [126, 0, 2, 144, 171, 57]

theorem dropGarbage_append (g f : List Nat) :
    (∀ b ∈ g, b ≠ 126) → dropGarbage (g ++ f) = dropGarbage f := by
  induction g with
  | nil => intro _; rfl
  | cons b rest ih =>
    intro hg
    have hb : b ≠ 126 := hg b (List.mem_cons_self b rest)
    have hrest : ∀ x ∈ rest, x ≠ 126 := fun x hx => hg x (List.mem_cons_of_mem b hx)
    simpa [dropGarbage, hb] using ih hrest

theorem dropGarbage_start (f : List Nat) (hne : f ≠ []) (h0 : f.getD 0 0 = 126) :
    dropGarbage f = f := by
  cases f with
  | nil => exact absurd rfl hne
  | cons b rest =>
    have hb : b = 126 := by simpa using h0
    simp [dropGarbage, hb]

theorem qstringToIntHex_cases (s : List Nat) :
    qstringToIntHex s = (0, false) ∨ (qstringToIntHex s).2 = true := by
  unfold qstringToIntHex
  cases parseHexAcc s 0 with
  | none => left; rfl
  | some v =>
    by_cases hc : s ≠ [] ∧ v ≤ 2 ^ 31 - 1
    · right
      show (if s ≠ [] ∧ v ≤ 2 ^ 31 - 1 then ((v, true) : Nat × Bool) else (0, false)).2 = true
      rw [if_pos hc]
    · left
      show (if s ≠ [] ∧ v ≤ 2 ^ 31 - 1 then ((v, true) : Nat × Bool) else (0, false)) = (0, false)
      rw [if_neg hc]

theorem qstringToIntHex_fst_of_fail (s : List Nat)
    (h : (qstringToIntHex s).2 = false) : (qstringToIntHex s).1 = 0 := by
  rcases qstringToIntHex_cases s with hc | hc
  · rw [hc]
  · rw [hc] at h
    simp at h

theorem qbaEndsWith_iff (xs : List Nat) (b : Nat) :
    qbaEndsWith xs b = true ↔ xs.getLast? = some b := by
  cases xs with
  | nil => simp [qbaEndsWith]
  | cons x rest =>
    have hlt : (x :: rest).length - 1 < (x :: rest).length := by simp
    rw [List.getLast?_eq_getElem?, List.getElem?_eq_getElem hlt]
    simp [qbaEndsWith, List.getD_eq_getElem?_getD, List.getElem?_eq_getElem hlt]

theorem qbaLeft_all (xs : List Nat) (len : Int) (h : (xs.length : Int) ≤ len) :
    qbaLeft xs len = xs := by
  unfold qbaLeft
  rw [if_pos h]

theorem qbaLeft_take (xs : List Nat) (len : Int) (h0 : 0 ≤ len)
    (h : len < (xs.length : Int)) : qbaLeft xs len = xs.take len.toNat := by
  unfold qbaLeft
  rw [if_neg (by omega), if_neg (by omega)]

theorem qbaRemoveFront_all (xs : List Nat) (len : Int) (h0 : 0 < len)
    (h : (xs.length : Int) ≤ len) : qbaRemoveFront xs len = [] := by
  unfold qbaRemoveFront
  rw [if_neg (by omega), if_pos h]

theorem qbaRemoveFront_drop (xs : List Nat) (len : Int) (h0 : 0 < len)
    (h : len < (xs.length : Int)) : qbaRemoveFront xs len = xs.drop len.toNat := by
  unfold qbaRemoveFront
  rw [if_neg (by omega), if_neg (by omega)]

theorem signedChar_small (L : Nat) (h : L < 128) : signedChar L = (L : Int) := by
  unfold signedChar
  rw [if_pos h]

theorem readDataAligned_slice (buf : List Nat) (L : Nat)
    (h2 : buf.getD 2 0 = L) (hL : L ≤ 127)
    (hbuf : L + 4 ≤ buf.length) (hsize : buf.length < 256) :
    readDataAligned buf
      = (some (qbaLeft buf ((L : Int) + 4)), qbaRemoveFront buf ((L : Int) + 4)) := by
  unfold readDataAligned
  rw [h2, signedChar_small L (by omega)]
  rw [if_pos (show 2 < buf.length by omega)]
  rw [Nat.mod_eq_of_lt hsize]
  rw [Int.emod_eq_of_lt (by omega) (by omega)]
  rw [if_pos (by omega)]

/-- C4 (amended): in structured mode, for every well-formed frame of
declared length L with L at most 127, feeding the L+4 frame bytes,
possibly preceded by garbage free of the 0x7E start marker, yields
exactly that frame as the one emitted packet and leaves the buffer
empty.  The bound 127 is forced: the length byte is read through a
signed char, so declared lengths of 128 and above are misread. -/
theorem readData_structured_extracts_frame (g f : List Nat) (L : Nat)
    (hg : ∀ b ∈ g, b ≠ 126)
    (hlen : f.length = L + 4)
    (h0 : f.getD 0 0 = 126)
    (h2 : f.getD 2 0 = L)
    (hL : L ≤ 127) :
    readData XBeeMode.API1Mode [] (g ++ f) = (some f, []) := by
  have hfne : f ≠ [] := by
    intro hf
    rw [hf] at hlen
    simp at hlen
  show readDataAPI [] (g ++ f) = (some f, [])
  unfold readDataAPI
  rw [List.nil_append, dropGarbage_append g f hg, dropGarbage_start f hfne h0]
  rw [readDataAligned_slice f L h2 hL (by omega) (by omega)]
  rw [qbaLeft_all f ((L : Int) + 4) (by rw [hlen]; push_cast; omega)]
  rw [qbaRemoveFront_all f ((L : Int) + 4) (by omega) (by rw [hlen]; push_cast; omega)]

/-- C4 (witness): the example of the spec, two garbage bytes followed
by the six-byte frame of declared length 2, yields that frame and an
empty buffer. -/
theorem readData_structured_extracts_frame_witness :
    readData XBeeMode.API1Mode [] ([1, 2] ++ frameExample) = (some frameExample, []) :=
  readData_structured_extracts_frame [1, 2] frameExample 2 (by decide) (by decide)
    (by decide) (by decide) (by decide)

/-- C4 (counterexample): a well-formed frame of declared length 128,
within the bound 255 stated by the claim, is not extracted: the length
byte read through a signed char makes the computed slice length
negative, so the emitted packet is empty and the 132 frame bytes all
stay in the buffer. -/
theorem readData_structured_len128_corrupts :
    frameLen128.length = 128 + 4 ∧
    frameLen128.getD 0 0 = 126 ∧
    frameLen128.getD 1 0 = 0 ∧
    frameLen128.getD 2 0 = 128 ∧
    readData XBeeMode.API1Mode [] frameLen128 ≠ (some frameLen128, []) ∧
    readData XBeeMode.API1Mode [] frameLen128 = (some [], frameLen128) := by
  decide

/-- C10 (amended): in structured mode a single delivery extracts at
most one frame: when the buffer holds a leading well-formed frame of
declared length at most 127 followed by further bytes, and the whole
buffer stays below 256 bytes, exactly the leading frame is emitted and
the remaining bytes stay in the buffer for a later delivery. -/
theorem readData_structured_single_frame (f1 f2 : List Nat) (L1 : Nat)
    (hlen1 : f1.length = L1 + 4)
    (h0 : f1.getD 0 0 = 126)
    (h2 : f1.getD 2 0 = L1)
    (hL1 : L1 ≤ 127)
    (htot : f1.length + f2.length < 256) :
    readData XBeeMode.API1Mode [] (f1 ++ f2) = (some f1, f2) := by
  have hfne : f1 ≠ [] := by
    intro hf
    rw [hf] at hlen1
    simp at hlen1
  have happ2 : (f1 ++ f2).getD 2 0 = L1 := by
    rw [List.getD_append f1 f2 0 2 (by omega), h2]
  have happ0 : (f1 ++ f2).getD 0 0 = 126 := by
    rw [List.getD_append f1 f2 0 0 (by omega), h0]
  have happlen : (f1 ++ f2).length = f1.length + f2.length := List.length_append f1 f2
  show readDataAPI [] (f1 ++ f2) = (some f1, f2)
  unfold readDataAPI
  rw [List.nil_append, dropGarbage_start (f1 ++ f2) (by simp [hfne]) happ0]
  rw [readDataAligned_slice (f1 ++ f2) L1 happ2 hL1 (by omega) (by omega)]
  have htoNat : ((L1 : Int) + 4).toNat = f1.length := by omega
  by_cases hf2 : f2 = []
  · subst hf2
    rw [qbaLeft_all (f1 ++ []) ((L1 : Int) + 4) (by simp only [List.append_nil]; omega)]
    rw [qbaRemoveFront_all (f1 ++ []) ((L1 : Int) + 4) (by omega)
      (by simp only [List.append_nil]; omega)]
    simp
  · have hf2len : 0 < f2.length := List.length_pos.mpr hf2
    rw [qbaLeft_take (f1 ++ f2) ((L1 : Int) + 4) (by omega)
      (by rw [List.length_append]; push_cast; omega)]
    rw [qbaRemoveFront_drop (f1 ++ f2) ((L1 : Int) + 4) (by omega)
      (by rw [List.length_append]; push_cast; omega)]
    rw [htoNat, List.take_left, List.drop_left]

/-- C10 (witness): two copies of the six-byte example frame delivered
at once yield only the first copy, the second staying in the buffer. -/
theorem readData_structured_single_frame_witness :
    readData XBeeMode.API1Mode [] (frameExample ++ frameExample)
      = (some frameExample, frameExample) :=
  readData_structured_single_frame frameExample frameExample 2 (by decide) (by decide)
    (by decide) (by decide) (by decide)

/-- C10 (counterexample): with two complete well-formed frames of
declared length 127 in the buffer, 262 bytes in total, the unsigned
char cast applied to the buffer size reduces it modulo 256, the size
comparison fails, and no frame at all is emitted, contradicting the
claim that the first of the two frames is emitted. -/
theorem readData_structured_two_frames_stall :
    frameLen127.length = 127 + 4 ∧
    frameLen127.getD 0 0 = 126 ∧
    frameLen127.getD 1 0 = 0 ∧
    frameLen127.getD 2 0 = 127 ∧
    readData XBeeMode.API1Mode [] (frameLen127 ++ frameLen127)
      = (none, frameLen127 ++ frameLen127) := by
  decide

/-- C9 (confirmed): in transparent mode, after a delivery the whole
accumulated buffer is emitted and cleared exactly when its last byte is
the carriage-return terminator 13; otherwise nothing is emitted and the
buffer is retained. -/
theorem readData_transparent_line (buffer data : List Nat) :
    readData XBeeMode.TransparentMode buffer data =
      if (buffer ++ data).getLast? = some 13 then (some (buffer ++ data), [])
      else (none, buffer ++ data) := by
  by_cases h : (buffer ++ data).getLast? = some 13
  · rw [if_pos h]
    have he : qbaEndsWith (buffer ++ data) 13 = true := (qbaEndsWith_iff _ _).2 h
    show (if qbaEndsWith (buffer ++ data) 13 then (some (buffer ++ data), [])
      else (none, buffer ++ data)) = (some (buffer ++ data), [])
    rw [he]
    simp
  · rw [if_neg h]
    have he : qbaEndsWith (buffer ++ data) 13 = false :=
      Bool.eq_false_iff.mpr (fun hq => h ((qbaEndsWith_iff _ _).1 hq))
    show (if qbaEndsWith (buffer ++ data) 13 then (some (buffer ++ data), [])
      else (none, buffer ++ data)) = (none, buffer ++ data)
    rw [he]
    simp

/-- C1 (counterexample): a CommandResponse for DH whose status 1 is a
failure status still overwrites the stored DH value, so a failing
status does not leave the stored addressing properties unchanged. -/
theorem failing_status_still_updates_property :
    (1 : Nat) ≠ ATResponseOk ∧
    stateDH5.dh = 5 ∧
    (processATCommandRespone stateDH5
      { atCmd := ATCommand.DH, data := [171], status := 1 }).1.dh = 171 := by
  decide

/-- C1 (amended): processing a dispatched CommandResponse updates the
stored addressing properties exactly as it would under a successful
status, because the status field is never consulted, and the generic
response-received event fires exactly once, carrying the raw
response. -/
theorem process_response_ignores_status (s : PropState) (rep : ATCommandResponse) :
    (processATCommandRespone s rep).1
      = (processATCommandRespone s { rep with status := 0 }).1 ∧
    List.filter isGenericResponseEvent (processATCommandRespone s rep).2
      = [ATEvent.receivedATCommandResponse rep] := by
  obtain ⟨cmd, d, st⟩ := rep
  cases cmd <;>
    simp [processATCommandRespone, isGenericResponseEvent, List.filter_append]

/-- C2 (counterexample): a successful CommandResponse for DH whose
payload ffffffff fails the hexadecimal-to-int conversion does not keep
the previous stored value 5; the property is overwritten with the
conversion failure result 0. -/
theorem failed_conversion_overwrites_with_zero :
    (qstringToIntHex (toHexBytes [255, 255, 255, 255])).2 = false ∧
    stateDH5.dh = 5 ∧
    (processATCommandRespone stateDH5
      { atCmd := ATCommand.DH, data := [255, 255, 255, 255], status := 0 }).1.dh = 0 := by
  decide

/-- C2 (amended): for every dispatched CommandResponse for a numeric
addressing property whose payload fails the hexadecimal conversion, the
stored value of that property is set to 0, the failure value of the
conversion; the failure is silently ignored at this layer. -/
theorem process_response_failed_conversion_stores_zero (s : PropState)
    (cmd : ATCommand) (f : PropState → Nat) (payload : List Nat) (st : Nat)
    (hcmd : numericPropOf cmd = some f)
    (hfail : (qstringToIntHex (toHexBytes payload)).2 = false) :
    f (processATCommandRespone s { atCmd := cmd, data := payload, status := st }).1 = 0 := by
  have h0 := qstringToIntHex_fst_of_fail _ hfail
  cases cmd <;> simp [numericPropOf] at hcmd <;> subst hcmd <;>
    simp [processATCommandRespone, h0]

/-- C2 (witness): the DH property with the overflowing payload ffffffff
is stored as 0. -/
theorem process_response_failed_conversion_stores_zero_witness :
    numericPropOf ATCommand.DH = some (fun s => s.dh) ∧
    (qstringToIntHex (toHexBytes [255, 255, 255, 255])).2 = false ∧
    (fun (s : PropState) => s.dh)
      (processATCommandRespone zeroState
        { atCmd := ATCommand.DH, data := [255, 255, 255, 255], status := 0 }).1 = 0 :=
  ⟨rfl, by decide,
    process_response_failed_conversion_stores_zero zeroState ATCommand.DH
      (fun s => s.dh) [255, 255, 255, 255] 0 rfl (by decide)⟩

/-- C3 (counterexample): starting from the initial counter value 1,
after 254 asynchronous sends with the transport available the counter
is 255, not 1, and the 255th send assigns the reserved value 255 as a
correlation id. -/
theorem frameIdCounter_reaches_255 :
    asyncCounterIter 254 1 = 255 ∧
    (255 : Nat) ≠ 1 ∧
    (sendATCommandAsync true true 255).assignedId = some 255 := by
  decide

/-- C3 (amended): every correlation id assigned to an outbound command,
whether by the asynchronous path with the transport available or by the
synchronous path, equals the current counter and lies in the interval
[1, 255]; both paths advance the counter identically, so the successor
counter stays in [1, 255]; starting from 1, the counter returns to 1
only after 255 sends; the value 0 is never assigned. -/
theorem frameIdCounter_range (c : Nat) (reply : List Nat) (h1 : 1 ≤ c) (h2 : c ≤ 255) :
    (sendATCommandAsync true true c).assignedId = some c ∧
    (sendATCommandSync c reply).assignedId = c ∧
    1 ≤ c ∧ c ≤ 255 ∧ c ≠ 0 ∧
    1 ≤ (sendATCommandAsync true true c).counter ∧
    (sendATCommandAsync true true c).counter ≤ 255 ∧
    (sendATCommandSync c reply).counter = (sendATCommandAsync true true c).counter ∧
    asyncCounterIter 255 1 = 1 := by
  refine ⟨by simp [sendATCommandAsync], rfl, h1, h2, by omega, ?_, ?_,
    by simp [sendATCommandAsync, sendATCommandSync], by decide⟩ <;>
    · simp only [sendATCommandAsync, Bool.and_self, if_true]
      split_ifs <;> omega

/-- C3 (witness): at counter value 1 both paths assign the id 1 and the
next counter value is in range. -/
theorem frameIdCounter_range_witness :
    (sendATCommandAsync true true 1).assignedId = some 1 ∧
    (sendATCommandSync 1 []).assignedId = 1 ∧
    1 ≤ 1 ∧ (1 : Nat) ≤ 255 ∧ (1 : Nat) ≠ 0 ∧
    1 ≤ (sendATCommandAsync true true 1).counter ∧
    (sendATCommandAsync true true 1).counter ≤ 255 ∧
    (sendATCommandSync 1 []).counter = (sendATCommandAsync true true 1).counter ∧
    asyncCounterIter 255 1 = 1 :=
  frameIdCounter_range 1 [] (by decide) (by decide)

/-- C6 (counterexample): an asynchronous send with the serial port not
open leaves the counter at 7 instead of advancing it to 8, and assigns
no correlation id: a dropped command consumes no correlation id. -/
theorem dropped_send_keeps_counter :
    (sendATCommandAsync true false 7).counter = 7 ∧
    (sendATCommandAsync true false 7).counter ≠ 8 ∧
    (sendATCommandAsync true false 7).assignedId = none := by
  decide

/-- C6 (amended): an asynchronous send advances the correlation-id
counter, wrapping values at or above 255 back to 1, exactly when the
device was found and the serial port is open; otherwise the command is
dropped, no id is assigned, and the counter is untouched. -/
theorem sendAsync_advances_iff (found opn : Bool) (c : Nat) :
    ((sendATCommandAsync found opn c).counter ≠ c ↔ (found = true ∧ opn = true)) ∧
    (sendATCommandAsync found opn c).assignedId
      = (if found && opn then some c else none) := by
  cases found <;> cases opn <;>
    simp [sendATCommandAsync] <;> split_ifs <;> omega

/-- C7 (confirmed): a synchronous send that drains zero reply bytes
within its timeouts returns a null response and decodes nothing; with
at least one byte drained, exactly those bytes are wrapped into the
returned response. -/
theorem sendSync_wraps_reply (c : Nat) (reply : List Nat) :
    (sendATCommandSync c reply).rep = if reply = [] then none else some reply := by
  unfold sendATCommandSync
  cases reply <;> simp

/-- C5 (code defect): with the mode step passing, an Ok hardware
revision response whose value 153 belongs to neither accepted hardware
revision still makes the handshake return success, because the source
condition is a disjunction of an equality against XBeeSerie1 and the
nonzero constant XBeeSerie1Pro itself, which always evaluates true; the
unsupported-hardware branch is unreachable. -/
theorem startupCheck_accepts_bad_hardware :
    (153 : Nat) ≠ XBeeSerie1 ∧
    (153 : Nat) ≠ XBeeSerie1Pro ∧
    (startupCheck true (SyncOutcome.reply 0 [1]) SyncOutcome.noReply
      (SyncOutcome.reply 0 [153])).ok = true := by
  decide

/-- C8 (confirmed): in the mode step of the startup handshake, on an Ok
response whose payload parses, the value 1 means no corrective
set-command is sent and the step succeeds, while any other value means
the corrective set-command is sent and the step succeeds exactly when
that second synchronous call returns an Ok status. -/
theorem startupCheck_ap_step (payload : List Nat) (apSet : SyncOutcome)
    (hok : (qstringToIntHex (toHexBytes payload)).2 = true) :
    ((qstringToIntHex (toHexBytes payload)).1 = 1 →
      apStepCheck (SyncOutcome.reply ATResponseOk payload) apSet = (true, false)) ∧
    ((qstringToIntHex (toHexBytes payload)).1 ≠ 1 →
      apStepCheck (SyncOutcome.reply ATResponseOk payload) apSet
        = (syncOutcomeIsOk apSet, true)) := by
  constructor
  · intro h1
    simp [apStepCheck, hok, h1]
  · intro h1
    cases apSet <;> simp [apStepCheck, hok, h1, syncOutcomeIsOk]

/-- C8 (witness): a mode query answering 2 with Ok status triggers the
corrective set-command, and an Ok reply to it makes the step succeed;
a mode query answering 1 sends nothing and succeeds. -/
theorem startupCheck_ap_step_witness :
    apStepCheck (SyncOutcome.reply ATResponseOk [1]) SyncOutcome.noReply = (true, false) ∧
    apStepCheck (SyncOutcome.reply ATResponseOk [2]) (SyncOutcome.reply 0 [])
      = (syncOutcomeIsOk (SyncOutcome.reply 0 []), true) ∧
    syncOutcomeIsOk (SyncOutcome.reply 0 []) = true :=
  ⟨(startupCheck_ap_step [1] SyncOutcome.noReply (by decide)).1 (by decide),
   (startupCheck_ap_step [2] (SyncOutcome.reply 0 []) (by decide)).2 (by decide),
   by decide⟩
